import Mathlib

/-!
# Verification of the Fraud-Detection launcher supervisor

Shallow embedding of the process-lifecycle supervisor implemented in
`start_system.py` (and its near-duplicate `run_dashboard.py`): readiness
probing of the backend health endpoint, conditional backend spawn with a
bounded polling loop, frontend spawn gated on backend readiness, the
monitoring loop, signal handling and the cleanup routine.

Child processes are modelled by an explicit state (`ProcState`) recording
whether the OS process is alive, whether it has been reaped, and whether it
exits promptly when sent a graceful termination signal.  The CPython
`subprocess.Popen` primitives used by the scripts (`terminate`, `wait`,
`kill`, `poll`) are modelled one-to-one (`popen_terminate`, `popen_wait5`,
`popen_kill`, `popen_poll`); note that `Popen.send_signal` first polls
(reaping a dead child) and only signals when the return code is still unset.
Runs of `main` are driven by an environment (`Env`) fixing the outcome of
every network probe, every spawn, every liveness check and every signal
arrival, and produce a trace of observable events (`Event`).
-/

namespace StartSystem

/-- The two managed child processes of `start_system.py`:
`api_process` (backend) and `streamlit_process` (frontend). -/
inductive PName
  | backend
  | frontend
  deriving DecidableEq, Repr, Fintype

/-- State of one spawned child process.
`running r` : the OS process is alive; `r` records whether it exits
promptly when sent a graceful termination signal (SIGTERM), i.e. within
the 5-second grace window used by `cleanup`.
`deadUnreaped` : the process has exited but its status was never collected.
`deadReaped` : the process has exited and its status was collected
(by `wait` or `poll`). -/
inductive ProcState
  | running (termResponsive : Bool)
  | deadUnreaped
  | deadReaped
  deriving DecidableEq, Repr, Fintype

/-- Classification of one graceful-then-forced termination attempt
(the spec's `TerminationResult`). -/
inductive TerminationResult
  | gracefulExit
  | forceKilled
  | alreadyStopped
  deriving DecidableEq, Repr, Fintype

/-- Observable events of a run of the launcher. -/
inductive Event
  /-- one `check_api_running()` call (one HTTP round-trip), with its result -/
  | probeAttempt (ok : Bool)
  /-- `subprocess.Popen` of the backend in `start_api` -/
  | spawnApi
  /-- `subprocess.Popen` of the frontend in `start_streamlit` -/
  | spawnFrontend
  /-- `time.sleep(n)` -/
  | sleepSec (n : Nat)
  /-- `p.poll()` liveness check in the monitoring loop, with aliveness -/
  | pollCheck (p : PName) (alive : Bool)
  /-- a call of `p.terminate()` -/
  | terminateCall (p : PName)
  /-- a call of `p.wait(timeout=5)` -/
  | waitCall (p : PName)
  /-- a call of `p.kill()` -/
  | killCall (p : PName)
  /-- SIGTERM actually delivered to the child -/
  | sigterm (p : PName)
  /-- SIGKILL actually delivered to the child -/
  | sigkill (p : PName)
  /-- the "failed to start within 15 seconds" report (startup timeout) -/
  | reportStartupTimeout
  /-- process exit with the given exit code -/
  | exitEv (code : Nat)
  deriving DecidableEq, Repr

/-- Is the OS process alive? -/
def isAlive : ProcState → Bool
  | .running _ => true
  | _ => false

/-- Has the exit status been collected? -/
def isReaped : ProcState → Bool
  | .deadReaped => true
  | _ => false

/-- `Popen.terminate()` (= `send_signal(SIGTERM)`): `send_signal` first
polls (reaping a dead child) and delivers the signal only when the return
code is still unset.  A `termResponsive` child exits promptly once
signalled (nobody has reaped it yet); a non-responsive child stays alive. -/
def popen_terminate (n : PName) : ProcState → ProcState × List Event
  | .running true => (.deadUnreaped, [.terminateCall n, .sigterm n])
  | .running false => (.running false, [.terminateCall n, .sigterm n])
  | .deadUnreaped => (.deadReaped, [.terminateCall n])
  | .deadReaped => (.deadReaped, [.terminateCall n])

/-- `Popen.wait(timeout=5)`: reaps if the child is dead (or dies within the
grace window), otherwise raises `TimeoutExpired` (second component `true`). -/
def popen_wait5 (n : PName) : ProcState → ProcState × Bool × List Event
  | .running b => (.running b, true, [.waitCall n])
  | .deadUnreaped => (.deadReaped, false, [.waitCall n])
  | .deadReaped => (.deadReaped, false, [.waitCall n])

/-- `Popen.kill()` (= `send_signal(SIGKILL)`): polls first, then SIGKILL —
which always kills — but does not reap. -/
def popen_kill (n : PName) : ProcState → ProcState × List Event
  | .running _ => (.deadUnreaped, [.killCall n, .sigkill n])
  | .deadUnreaped => (.deadReaped, [.killCall n])
  | .deadReaped => (.deadReaped, [.killCall n])

/-- `Popen.poll()` at a monitoring instant where the environment says the
child is (`aliveNow = true`) or is not alive: returns the new state and
whether `poll()` returned a non-`None` exit code (reaping the child). -/
def popen_poll (aliveNow : Bool) : ProcState → ProcState × Bool
  | .running b => if aliveNow then (.running b, false) else (.deadReaped, true)
  | .deadUnreaped => (.deadReaped, true)
  | .deadReaped => (.deadReaped, true)

/-- The per-handle body of `cleanup` (lines 23-28 and 30-35 of
`start_system.py`): `p.terminate()`, then `p.wait(timeout=5)`, and on
`TimeoutExpired` a final `p.kill()`.  Also returns the spec-level
classification of what happened. -/
def terminateHandle (n : PName) (p : ProcState) : ProcState × TerminationResult × List Event :=
  let (p1, e1) := popen_terminate n p
  let (p2, timedOut, e2) := popen_wait5 n p1
  if timedOut then
    let (p3, e3) := popen_kill n p2
    (p3, .forceKilled, e1 ++ e2 ++ e3)
  else
    (p2, if isAlive p then .gracefulExit else .alreadyStopped, e1 ++ e2)

/-- The two global process variables of `start_system.py`
(`None` when never assigned). -/
structure SupState where
  api_process : Option ProcState
  streamlit_process : Option ProcState
  deriving DecidableEq, Repr, Fintype

/-- One `if p: p.terminate(); ...` block of `cleanup`: absent handles are
skipped entirely. -/
def cleanupHandle (n : PName) :
    Option ProcState → Option ProcState × List TerminationResult × List Event
  | none => (none, [], [])
  | some p =>
    let (p2, r, es) := terminateHandle n p
    (some p2, [r], es)

/-- `cleanup()` (lines 18-37): terminate the frontend first, then the
backend, each guarded by a presence check. -/
def cleanup (s : SupState) : SupState × List TerminationResult × List Event :=
  let (st2, rs1, es1) := cleanupHandle .frontend s.streamlit_process
  let (api2, rs2, es2) := cleanupHandle .backend s.api_process
  (⟨api2, st2⟩, rs1 ++ rs2, es1 ++ es2)

/-- `signal_handler(signum, frame)` (lines 39-42): runs `cleanup()`
directly in the signal-handling context, then `sys.exit(0)`. -/
def signal_handler (s : SupState) : SupState × List Event :=
  let (s2, _, es) := cleanup s
  (s2, es ++ [.exitEv 0])

/-- Outcome of the single HTTP round-trip performed by
`requests.get(".../health", timeout=...)`. -/
inductive HttpOutcome
  | connFailure
  | timedOut
  | response (status : Nat)
  deriving DecidableEq, Repr

/-- `check_api_running()` (lines 44-50 of `start_system.py`; identically in
lines 11-17 of `run_dashboard.py`, which only uses a 5s instead of a 3s
request timeout): `True` exactly when the request completed with status
code 200, `False` on any exception (connection failure, timeout) or any
other status code. -/
def check_api_running : HttpOutcome → Bool
  | .response status => status == 200
  | _ => false

/-- `check_api_running` applied to a network modelled as a stream of
round-trip outcomes: the function issues exactly one request, so it only
ever consults index 0 of the stream. -/
def check_api_running_net (net : Nat → HttpOutcome) : Bool :=
  check_api_running (net 0)

/-- Environment fixing every external nondeterministic outcome of one run:
the result of the pre-spawn health probe, whether each `subprocess.Popen`
call succeeds, the outcome of the i-th in-loop health probe, whether each
spawned child exits promptly on SIGTERM, whether a handled signal arrives
during monitoring iteration t, and whether each child process is still
alive at monitoring iteration t. -/
structure Env where
  initialProbe : HttpOutcome
  spawnApiOk : Bool
  probe : Nat → HttpOutcome
  apiResponsive : Bool
  spawnStOk : Bool
  stResponsive : Bool
  sigAt : Nat → Bool
  apiAlive : Nat → Bool
  stAlive : Nat → Bool

/-- The polling loop of `start_api` (lines 66-71): `for i in range(...)`,
each iteration sleeping 1 second and then probing once; returns on the
first successful probe.  `i` is the current attempt index, `rem` the
remaining attempt budget. -/
def pollLoop (probe : Nat → HttpOutcome) : Nat → Nat → List Event × Bool
  | _, 0 => ([], false)
  | i, rem + 1 =>
    let ok := check_api_running (probe i)
    if ok then ([.sleepSec 1, .probeAttempt ok], true)
    else
      let (es, r) := pollLoop probe (i + 1) rem
      (.sleepSec 1 :: .probeAttempt ok :: es, r)

/-- `start_api()` (lines 52-80): spawn the backend (a `Popen` failure is
caught and reported as `False` with `api_process` left unset), then poll
readiness up to 15 times at 1-second intervals; on exhaustion report the
startup timeout, call `api_process.terminate()` (bare — no wait, no kill)
and return `False`, leaving the terminated handle in `api_process`. -/
def start_api (env : Env) : List Event × Bool × Option ProcState :=
  if env.spawnApiOk then
    let (es, ok) := pollLoop env.probe 0 15
    if ok then (.spawnApi :: es, true, some (.running env.apiResponsive))
    else
      let (p2, tes) := popen_terminate .backend (.running env.apiResponsive)
      (.spawnApi :: es ++ [.reportStartupTimeout] ++ tes, false, some p2)
  else ([], false, none)

/-- `start_streamlit()` (lines 82-102): spawn the frontend (a `Popen`
failure is caught and reported as `None`), then sleep 3 seconds as a
fixed settle delay and report success. -/
def start_streamlit (env : Env) : List Event × Option ProcState :=
  if env.spawnStOk then ([.spawnFrontend, .sleepSec 3], some (.running env.stResponsive))
  else ([], none)

/-- Why a run of `main` ended. -/
inductive Reason
  /-- `start_api` returned `False`: `sys.exit(1)` at line 120 -/
  | startupApiFailure
  /-- `start_streamlit` returned `False`: `cleanup(); sys.exit(1)` at 124-125 -/
  | startupFrontendFailure
  /-- a handled signal arrived: `signal_handler` ran -/
  | signalled
  /-- the monitoring loop found the backend not alive -/
  | apiDied
  /-- the monitoring loop found the frontend not alive -/
  | stDied
  /-- fuel ran out with the monitoring loop still running -/
  | stillRunning
  deriving DecidableEq, Repr

/-- Result of one (fuel-bounded) run of the launcher. -/
structure RunResult where
  events : List Event
  exitCode : Option Nat
  reason : Reason
  final : SupState
  deriving DecidableEq, Repr

/-- A `break` out of the monitoring loop: the `finally:` block runs
`cleanup()`, `main` returns normally, and the `atexit`-registered
`cleanup()` runs once more during interpreter exit; the process exits
with code 0. -/
def breakExit (pre : List Event) (r : Reason) (s : SupState) : RunResult :=
  let (s1, _, es1) := cleanup s
  let (s2, _, es2) := cleanup s1
  ⟨pre ++ es1 ++ es2 ++ [.exitEv 0], some 0, r, s2⟩

/-- A signal during monitoring: `signal_handler` runs `cleanup()` and
`sys.exit(0)`; the `SystemExit` propagates through the `finally:` block
(`cleanup()` again), and the `atexit` hook runs `cleanup()` a third time;
the process exits with code 0. -/
def signalExit (pre : List Event) (s : SupState) : RunResult :=
  let (s1, _, es1) := cleanup s
  let (s2, _, es2) := cleanup s1
  let (s3, _, es3) := cleanup s2
  ⟨pre ++ es1 ++ es2 ++ es3 ++ [.exitEv 0], some 0, .signalled, s3⟩

/-- One iteration of the monitoring loop (lines 135-145): sleep 1 second,
then — unless a handled signal arrives, modelled as arriving right after
the sleep — poll the backend handle (when owned, guarded by
`if api_process`) and the frontend handle; a non-`None` `poll()` result
breaks out of the loop.  `Sum.inl` is a finished run (signal exit or
break-and-cleanup), `Sum.inr` the continuing state with the iteration's
events. -/
def monitorStep (env : Env) (apiP stP : Option ProcState) (t : Nat) :
    RunResult ⊕ (SupState × List Event) :=
  if env.sigAt t then .inl (signalExit [.sleepSec 1] ⟨apiP, stP⟩)
  else
    match apiP with
    | some p =>
      let (p2, dead) := popen_poll (env.apiAlive t) p
      if dead then
        .inl (breakExit [.sleepSec 1, .pollCheck .backend false] .apiDied ⟨some p2, stP⟩)
      else
        stepFrontend env (some p2) stP t [.sleepSec 1, .pollCheck .backend true]
    | none => stepFrontend env none stP t [.sleepSec 1]
where
  /-- the frontend half of one monitoring iteration
  (`if streamlit_process and streamlit_process.poll() is not None`) -/
  stepFrontend (env : Env) (apiP stP : Option ProcState) (t : Nat)
      (pre : List Event) : RunResult ⊕ (SupState × List Event) :=
    match stP with
    | some q =>
      let (q2, dead) := popen_poll (env.stAlive t) q
      if dead then
        .inl (breakExit (pre ++ [.pollCheck .frontend false]) .stDied ⟨apiP, some q2⟩)
      else .inr (⟨apiP, some q2⟩, pre ++ [.pollCheck .frontend true])
    | none => .inr (⟨apiP, none⟩, pre)

/-- The monitoring loop: iterate `monitorStep`; `t` is the iteration
counter, `fuel` bounds the unbounded `while True`. -/
def monitor (env : Env) (apiP stP : Option ProcState) (t : Nat) : Nat → RunResult
  | 0 => ⟨[], none, .stillRunning, ⟨apiP, stP⟩⟩
  | fuel + 1 =>
    match monitorStep env apiP stP t with
    | .inl r => r
    | .inr (s2, es) =>
      let r := monitor env s2.api_process s2.streamlit_process (t + 1) fuel
      ⟨es ++ r.events, r.exitCode, r.reason, r.final⟩

/-- The frontend phase of `main` (lines 122-150): `start_streamlit`, on
failure `cleanup(); sys.exit(1)` (plus the `atexit` cleanup), otherwise
enter the monitoring loop. -/
def frontendPhase (env : Env) (apiP : Option ProcState) (fuel : Nat) : RunResult :=
  let (es, stP) := start_streamlit env
  match stP with
  | none =>
    let (s1, _, c1) := cleanup ⟨apiP, none⟩
    let (s2, _, c2) := cleanup s1
    ⟨es ++ c1 ++ c2 ++ [.exitEv 1], some 1, .startupFrontendFailure, s2⟩
  | some q =>
    let r := monitor env apiP (some q) 0 fuel
    ⟨es ++ r.events, r.exitCode, r.reason, r.final⟩

/-- `main()` (lines 104-150): probe once for an externally running backend;
if not ready, `start_api()` — whose failure is `sys.exit(1)` (the `atexit`
cleanup still runs) — then the frontend phase and the monitoring loop. -/
def mainRun (env : Env) (fuel : Nat) : RunResult :=
  if check_api_running env.initialProbe then
    let r := frontendPhase env none fuel
    ⟨.probeAttempt true :: r.events, r.exitCode, r.reason, r.final⟩
  else
    let (es, ok, apiP) := start_api env
    if ok then
      let r := frontendPhase env apiP fuel
      ⟨.probeAttempt false :: (es ++ r.events), r.exitCode, r.reason, r.final⟩
    else
      let (s1, _, ces) := cleanup ⟨apiP, none⟩
      ⟨.probeAttempt false :: (es ++ ces ++ [.exitEv 1]), some 1, .startupApiFailure, s1⟩

/-- `start_api()` of `run_dashboard.py` (lines 19-44): same shape as in
`start_system.py` but with a 10-attempt budget, returning the handle (or
`None`) instead of a flag; on exhaustion it calls `api_process.terminate()`
(bare) and returns `None`, dropping the handle. -/
def rd_start_api (env : Env) : List Event × Option ProcState :=
  if env.spawnApiOk then
    let (es, ok) := pollLoop env.probe 0 10
    if ok then (.spawnApi :: es, some (.running env.apiResponsive))
    else
      let (_, tes) := popen_terminate .backend (.running env.apiResponsive)
      (.spawnApi :: es ++ [.reportStartupTimeout] ++ tes, none)
  else ([], none)

/-- `start_streamlit()` of `run_dashboard.py` (lines 46-58): spawn only,
no settle delay. -/
def rd_start_streamlit (env : Env) : List Event × Option ProcState :=
  if env.spawnStOk then ([.spawnFrontend], some (.running env.stResponsive))
  else ([], none)

/-- `main()` of `run_dashboard.py` (lines 60-94): probe once; spawn the
backend when not externally ready (exit 1 on failure); spawn the frontend
(on failure terminate an owned backend and exit 1); then block in
`streamlit_process.wait()`.  `interrupted` says whether that wait ends by
Ctrl+C (then both handles get a bare `terminate()`) or by the frontend
exiting on its own; either way `main` returns and the process exits 0. -/
def rd_mainRun (env : Env) (interrupted : Bool) : List Event × Option Nat :=
  let ready0 := check_api_running env.initialProbe
  let (pre, apiP, apiOk) :=
    if ready0 then ([Event.probeAttempt true], none, true)
    else
      let (es, apiP) := rd_start_api env
      (Event.probeAttempt false :: es, apiP, apiP.isSome)
  if apiOk then
    let (es2, stP) := rd_start_streamlit env
    match stP with
    | none =>
      let tes := match apiP with
        | some p => (popen_terminate .backend p).2
        | none => []
      (pre ++ es2 ++ tes ++ [.exitEv 1], some 1)
    | some q =>
      if interrupted then
        let tes := match apiP with
          | some p => (popen_terminate .backend p).2
          | none => []
        (pre ++ es2 ++ [.waitCall .frontend] ++ tes ++
          (popen_terminate .frontend q).2 ++ [.exitEv 0], some 0)
      else
        (pre ++ es2 ++ [.waitCall .frontend, .exitEv 0], some 0)
  else
    (pre ++ [.exitEv 1], some 1)

/-! ## Derived observers used in the statements -/

/-- The exit code each run-ending reason produces in `start_system.py`:
`sys.exit(1)` for the two startup failures, exit code 0 for a signal
(`sys.exit(0)` in the handler) and for a `break` out of the monitoring
loop (falling off the end of `main`); no exit while still monitoring. -/
def expectedCode : Reason → Option Nat
  | .startupApiFailure => some 1
  | .startupFrontendFailure => some 1
  | .signalled => some 0
  | .apiDied => some 0
  | .stDied => some 0
  | .stillRunning => none

/-- Is this event a health-endpoint probe (`check_api_running` call)? -/
def isProbe : Event → Bool
  | .probeAttempt _ => true
  | _ => false

/-- Is this event a 1-second sleep (the fixed poll interval)? -/
def isSleep1 : Event → Bool
  | .sleepSec n => n == 1
  | _ => false

/-- Number of health-endpoint probes in an event list. -/
def countProbes (es : List Event) : Nat := (es.filter isProbe).length

/-- Number of 1-second poll-interval sleeps in an event list. -/
def countSleep1 (es : List Event) : Nat := (es.filter isSleep1).length

/-- `true` when the event list delivers no signal (neither SIGTERM nor
SIGKILL) to any child. -/
def noSignal (es : List Event) : Bool :=
  es.all fun e =>
    match e with
    | .sigterm _ => false
    | .sigkill _ => false
    | _ => true

/-- Does this event touch the backend process in any way (spawn it, poll
its liveness, or call/deliver any termination primitive on it)? -/
def touchesBackend : Event → Bool
  | .spawnApi => true
  | .pollCheck .backend _ => true
  | .terminateCall .backend => true
  | .waitCall .backend => true
  | .killCall .backend => true
  | .sigterm .backend => true
  | .sigkill .backend => true
  | _ => false

/-- `true` when no event in the list touches the backend process. -/
def backendFree (es : List Event) : Bool :=
  es.all fun e => !touchesBackend e

/-- Scans an event list in order: `false` iff a `spawnFrontend` event
occurs before the first successful readiness probe. -/
def frontendGated : List Event → Bool
  | [] => true
  | e :: es =>
    if e = .spawnFrontend then false
    else if e = .probeAttempt true then true
    else frontendGated es

/-- The events of `rem` consecutive failed polling-loop iterations. -/
def pollFailEvents : Nat → List Event
  | 0 => []
  | rem + 1 => .sleepSec 1 :: .probeAttempt false :: pollFailEvents rem

/-- Aliveness of an optional handle (absent handles are not alive). -/
def optAlive : Option ProcState → Bool
  | some p => isAlive p
  | none => false

/-! ## Concrete environments for counterexamples and witnesses -/

/-- Backend already running externally; frontend spawns fine and then
exits unexpectedly at the very first monitoring iteration; no signal. -/
def envFrontendDies : Env :=
  ⟨.response 200, true, fun _ => .connFailure, true, true, true,
    fun _ => false, fun _ => true, fun _ => false⟩

/-- Backend not running and never becoming healthy: every probe is a
connection failure; no signal; both children stay alive. -/
def envNeverReady : Env :=
  ⟨.connFailure, true, fun _ => .connFailure, true, true, true,
    fun _ => false, fun _ => true, fun _ => true⟩

/-- Backend not running; it becomes healthy on the fourth probe (index 3);
both children then stay alive and no signal arrives. -/
def envReadyAt3 : Env :=
  ⟨.connFailure, true, fun i => if i = 3 then .response 200 else .timedOut,
    true, true, true, fun _ => false, fun _ => true, fun _ => true⟩

/-- Backend already running externally; both children stay alive;
a signal arrives at monitoring iteration 2. -/
def envExternal : Env :=
  ⟨.response 200, true, fun _ => .connFailure, true, true, true,
    fun t => t == 2, fun _ => true, fun _ => true⟩

/-! ## Structural lemmas -/

theorem breakExit_exitCode (pre : List Event) (r : Reason) (s : SupState) :
    (breakExit pre r s).exitCode = some 0 := rfl

theorem breakExit_reason (pre : List Event) (r : Reason) (s : SupState) :
    (breakExit pre r s).reason = r := rfl

theorem breakExit_events (pre : List Event) (r : Reason) (s : SupState) :
    (breakExit pre r s).events =
      pre ++ (cleanup s).2.2 ++ (cleanup (cleanup s).1).2.2 ++ [.exitEv 0] := rfl

theorem breakExit_final (pre : List Event) (r : Reason) (s : SupState) :
    (breakExit pre r s).final = (cleanup (cleanup s).1).1 := rfl

theorem signalExit_exitCode (pre : List Event) (s : SupState) :
    (signalExit pre s).exitCode = some 0 := rfl

theorem signalExit_reason (pre : List Event) (s : SupState) :
    (signalExit pre s).reason = .signalled := rfl

theorem signalExit_events (pre : List Event) (s : SupState) :
    (signalExit pre s).events =
      pre ++ (cleanup s).2.2 ++ (cleanup (cleanup s).1).2.2 ++
        (cleanup (cleanup (cleanup s).1).1).2.2 ++ [.exitEv 0] := rfl

theorem signalExit_final (pre : List Event) (s : SupState) :
    (signalExit pre s).final = (cleanup (cleanup (cleanup s).1).1).1 := rfl

/-- Any run ended by a single monitoring iteration exits with code 0 and
one of the three loop-ending reasons. -/
theorem monitorStep_inl (env : Env) (apiP stP : Option ProcState) (t : Nat)
    (r : RunResult) (h : monitorStep env apiP stP t = .inl r) :
    r.exitCode = some 0 ∧
      (r.reason = .signalled ∨ r.reason = .apiDied ∨ r.reason = .stDied) := by
  have hfe : ∀ (a b : Option ProcState) (pre : List Event),
      monitorStep.stepFrontend env a b t pre = .inl r →
      r.exitCode = some 0 ∧ r.reason = .stDied := by
    intro a b pre hf
    unfold monitorStep.stepFrontend at hf
    cases b with
    | none => exact absurd hf (by simp)
    | some q =>
      simp only at hf
      split at hf
      · cases hf; exact ⟨rfl, rfl⟩
      · exact absurd hf (by simp)
  unfold monitorStep at h
  split at h
  · cases h; exact ⟨rfl, Or.inl rfl⟩
  · cases apiP with
    | some p =>
      simp only at h
      split at h
      · cases h; exact ⟨rfl, Or.inr (Or.inl rfl)⟩
      · rcases hfe _ _ _ h with ⟨h1, h2⟩; exact ⟨h1, Or.inr (Or.inr h2)⟩
    | none =>
      rcases hfe _ _ _ h with ⟨h1, h2⟩; exact ⟨h1, Or.inr (Or.inr h2)⟩

/-- The monitoring loop's exit code always matches its reason. -/
theorem monitor_exitCode_eq (env : Env) :
    ∀ (fuel : Nat) (apiP stP : Option ProcState) (t : Nat),
      (monitor env apiP stP t fuel).exitCode =
        expectedCode (monitor env apiP stP t fuel).reason := by
  intro fuel
  induction fuel with
  | zero => intro apiP stP t; rfl
  | succ fuel ih =>
    intro apiP stP t
    rcases hstep : monitorStep env apiP stP t with r | ⟨s2, es⟩
    · rcases monitorStep_inl env apiP stP t r hstep with ⟨h1, h2⟩
      simp only [monitor, hstep]
      rcases h2 with h2 | h2 | h2 <;> rw [h1, h2] <;> rfl
    · simp only [monitor, hstep]
      exact ih s2.api_process s2.streamlit_process (t + 1)

/-- The frontend phase's exit code always matches its reason. -/
theorem frontendPhase_exitCode_eq (env : Env) (apiP : Option ProcState)
    (fuel : Nat) :
    (frontendPhase env apiP fuel).exitCode =
      expectedCode (frontendPhase env apiP fuel).reason := by
  by_cases h : env.spawnStOk
  · simp only [frontendPhase, start_streamlit, h, if_true]
    exact monitor_exitCode_eq env fuel apiP _ 0
  · simp only [frontendPhase, start_streamlit, h, if_false]
    rfl

/-! ## Claim C1 — exit codes -/

/-- Claim C1 counterexample: in a run where the backend is externally
ready, the frontend spawns and then exits unexpectedly at the first
monitoring iteration with no signal ever arriving, the supervisor breaks
out of the monitoring loop, runs `cleanup`, and the process exits with
code 0 — not the nonzero code the claim requires for a shutdown triggered
by an unexpected child exit. -/
theorem C1_counterexample :
    (mainRun envFrontendDies 3).reason = .stDied ∧
    (mainRun envFrontendDies 3).exitCode = some 0 ∧
    Event.exitEv 0 ∈ (mainRun envFrontendDies 3).events := by
  decide

/-- Claim C1 amended: the exit code is nonzero (namely 1) exactly for a
startup failure (backend never ready, or a spawn failure); shutdown
triggered by a signal exits 0, and shutdown triggered by an unexpected
exit of an owned child (backend or frontend found not alive in the
monitoring loop) also exits 0, after the cleanup path has terminated the
remaining owned processes. -/
theorem C1_exit_codes (env : Env) (fuel : Nat) :
    (mainRun env fuel).exitCode = expectedCode (mainRun env fuel).reason := by
  by_cases h0 : check_api_running env.initialProbe
  · simp only [mainRun, h0, if_true]
    exact frontendPhase_exitCode_eq env none fuel
  · by_cases hspawn : env.spawnApiOk
    · rcases hpoll : pollLoop env.probe 0 15 with ⟨es, ok⟩
      cases ok with
      | true =>
        simp only [mainRun, h0, if_false, start_api, hspawn, if_true, hpoll]
        exact frontendPhase_exitCode_eq env _ fuel
      | false =>
        simp only [mainRun, h0, if_false, start_api, hspawn, if_true, hpoll]
        rfl
    · simp only [mainRun, h0, if_false, start_api, hspawn, if_false]
      rfl

/-! ## Claim C2 — signal-handling context -/

/-- Claim C2 counterexample: `signal_handler` — the code run inside the
signal-handling context — directly executes process-manipulation calls:
with both children alive it calls `terminate` and `wait` on (and delivers
SIGTERM to) both managed processes, contradicting the claim that the
signal-handling context only writes a shutdown flag and never executes
terminate/kill/wait on a `ManagedProcess`.  (The source has no shutdown
flag at all.) -/
theorem C2_counterexample :
    Event.terminateCall .frontend ∈
      (signal_handler ⟨some (.running true), some (.running true)⟩).2 ∧
    Event.terminateCall .backend ∈
      (signal_handler ⟨some (.running true), some (.running true)⟩).2 ∧
    Event.sigterm .frontend ∈
      (signal_handler ⟨some (.running true), some (.running true)⟩).2 ∧
    Event.waitCall .frontend ∈
      (signal_handler ⟨some (.running true), some (.running true)⟩).2 := by
  decide

/-- Claim C2 amended: on arrival of a handled signal (interrupt or
terminate both install the same handler), the handler directly invokes
the whole `cleanup` routine inside the signal-handling context — so
terminate/wait (and if needed kill) calls on the managed processes
execute there — and then calls `sys.exit(0)`; there is no shutdown flag,
and in particular a live frontend handle receives its graceful
termination call and signal inside the handler. -/
theorem C2_signal_handler_runs_cleanup (s : SupState) :
    signal_handler s = ((cleanup s).1, (cleanup s).2.2 ++ [Event.exitEv 0]) ∧
    (optAlive s.streamlit_process = true →
      Event.terminateCall .frontend ∈ (signal_handler s).2 ∧
      Event.sigterm .frontend ∈ (signal_handler s).2) := by
  revert s; decide

/-- Witness for C2: the amended theorem applied to a state owning only a
live, SIGTERM-responsive frontend. -/
theorem C2_witness :
    Event.terminateCall .frontend ∈
      (signal_handler ⟨none, some (.running true)⟩).2 ∧
    Event.sigterm .frontend ∈ (signal_handler ⟨none, some (.running true)⟩).2 :=
  (C2_signal_handler_runs_cleanup ⟨none, some (.running true)⟩).2 (by decide)

/-! ## Claim C3 — idempotence of terminate and cleanup -/

/-- Claim C3: `terminate` on an already-stopped handle is a no-op that
reports `AlreadyStopped` — it delivers no signal, leaves the handle
not alive, and (being a total function of the embedding) never raises;
`terminate` skips an absent handle entirely; and a second invocation of
the whole `cleanup` routine is a guaranteed no-op: it delivers no
signals, reports `AlreadyStopped` for every present handle, and changes
no handle's aliveness. -/
theorem C3_terminate_cleanup_idempotent (n : PName) (s : SupState) :
    (terminateHandle n .deadUnreaped).2.1 = .alreadyStopped ∧
    (terminateHandle n .deadReaped).2.1 = .alreadyStopped ∧
    noSignal (terminateHandle n .deadUnreaped).2.2 = true ∧
    noSignal (terminateHandle n .deadReaped).2.2 = true ∧
    isAlive (terminateHandle n .deadUnreaped).1 = false ∧
    isAlive (terminateHandle n .deadReaped).1 = false ∧
    cleanupHandle n none = (none, [], []) ∧
    noSignal (cleanup (cleanup s).1).2.2 = true ∧
    (∀ r ∈ (cleanup (cleanup s).1).2.1, r = .alreadyStopped) ∧
    optAlive (cleanup (cleanup s).1).1.api_process =
      optAlive (cleanup s).1.api_process ∧
    optAlive (cleanup (cleanup s).1).1.streamlit_process =
      optAlive (cleanup s).1.streamlit_process := by
  revert n s; decide

/-- Witness for C3: the idempotence theorem applied to a state owning a
SIGTERM-ignoring backend and a responsive frontend. -/
theorem C3_witness :
    noSignal (cleanup
      (cleanup ⟨some (.running false), some (.running true)⟩).1).2.2 = true :=
  (C3_terminate_cleanup_idempotent .backend
    ⟨some (.running false), some (.running true)⟩).2.2.2.2.2.2.2.1

/-! ## Claim C6 — graceful-then-forced termination -/

/-- Claim C6 counterexample: on a live handle whose process ignores the
graceful termination request, `cleanup`'s per-handle sequence sends
SIGTERM, waits the 5-second grace period, force-kills — and then does
*not* reap the exit status: there is no `wait` after `kill()`, so the
child stays an unreaped zombie, contradicting the claim's final "and then
reaps the exit status". -/
theorem C6_counterexample :
    (terminateHandle .frontend (.running false)).2.1 = .forceKilled ∧
    isReaped (terminateHandle .frontend (.running false)).1 = false ∧
    (terminateHandle .frontend (.running false)).2.2 =
      [.terminateCall .frontend, .sigterm .frontend, .waitCall .frontend,
        .killCall .frontend, .sigkill .frontend] := by
  decide

/-- Claim C6 amended: for every live handle, `cleanup`'s termination
sequence sends the graceful termination request and waits up to the
5-second grace period; if the process exits voluntarily within the grace
period its exit status is reaped (`gracefulExit`), and if it is still
alive it is force-killed — but in the force-kill path the exit status is
not reaped. -/
theorem C6_terminate_grace_then_kill (n : PName) :
    terminateHandle n (.running true) =
      (.deadReaped, .gracefulExit,
        [.terminateCall n, .sigterm n, .waitCall n]) ∧
    terminateHandle n (.running false) =
      (.deadUnreaped, .forceKilled,
        [.terminateCall n, .sigterm n, .waitCall n,
          .killCall n, .sigkill n]) := by
  revert n; decide

/-! ## Claim C8 — readiness probe -/

/-- Claim C8: the readiness probe performs a single bounded round-trip —
its result depends only on the first (and only) network outcome it
consults, so there is no internal retry — and it returns ready exactly
when that round-trip completed with the success status 200: connection
failure, timeout and every non-success status uniformly yield not-ready,
so the caller cannot distinguish the failure cause. -/
theorem C8_probe_single_request (net net' : Nat → HttpOutcome)
    (h : net 0 = net' 0) :
    check_api_running_net net = check_api_running_net net' ∧
    (∀ o : HttpOutcome, check_api_running o = true ↔ o = .response 200) ∧
    check_api_running .connFailure = false ∧
    check_api_running .timedOut = false := by
  refine ⟨by simp [check_api_running_net, h], ?_, rfl, rfl⟩
  intro o
  cases o with
  | connFailure => simp [check_api_running]
  | timedOut => simp [check_api_running]
  | response s => simp [check_api_running]

/-- Witness for C8: two networks agreeing on their single consulted
outcome give the same probe result, and a 200 response reports ready. -/
theorem C8_witness :
    check_api_running_net (fun _ => .connFailure) =
      check_api_running_net (fun n => if n = 0 then .connFailure else .response 200) ∧
    check_api_running (.response 200) = true :=
  ⟨(C8_probe_single_request (fun _ => .connFailure)
      (fun n => if n = 0 then .connFailure else .response 200) rfl).1,
    ((C8_probe_single_request (fun _ => .connFailure)
      (fun n => if n = 0 then .connFailure else .response 200) rfl).2.1
      (.response 200)).mpr rfl⟩

/-! ## Polling-loop lemmas -/

/-- If every probe in the budget fails, the polling loop runs through its
whole budget and reports failure. -/
theorem pollLoop_all_fail (probe : Nat → HttpOutcome) :
    ∀ (rem i : Nat),
      (∀ j, j < rem → check_api_running (probe (i + j)) = false) →
      pollLoop probe i rem = (pollFailEvents rem, false) := by
  intro rem
  induction rem with
  | zero => intro i _; rfl
  | succ rem ih =>
    intro i h
    have h0 : check_api_running (probe i) = false := by
      have := h 0 (Nat.succ_pos rem)
      simpa using this
    have hrest : ∀ j, j < rem → check_api_running (probe (i + 1 + j)) = false := by
      intro j hj
      have := h (j + 1) (by omega)
      rw [show i + (j + 1) = i + 1 + j by omega] at this
      exact this
    simp [pollLoop, h0, ih (i + 1) hrest, pollFailEvents]

/-- If the first successful probe is at offset `d` within the budget, the
polling loop stops right there: `d` failed iterations, then the one
successful probe, and success is reported. -/
theorem pollLoop_first_success (probe : Nat → HttpOutcome) :
    ∀ (d rem i : Nat), d < rem →
      check_api_running (probe (i + d)) = true →
      (∀ j, j < d → check_api_running (probe (i + j)) = false) →
      pollLoop probe i rem =
        (pollFailEvents d ++ [.sleepSec 1, .probeAttempt true], true) := by
  intro d
  induction d with
  | zero =>
    intro rem i hlt hsucc _
    match rem, hlt with
    | rem + 1, _ =>
      have h0 : check_api_running (probe i) = true := by simpa using hsucc
      simp [pollLoop, h0, pollFailEvents]
  | succ d ih =>
    intro rem i hlt hsucc hfail
    match rem, hlt with
    | rem + 1, hlt =>
      have h0 : check_api_running (probe i) = false := by
        simpa using hfail 0 (Nat.succ_pos d)
      have hs : check_api_running (probe (i + 1 + d)) = true := by
        rw [show i + 1 + d = i + (d + 1) by omega]
        exact hsucc
      have hf : ∀ j, j < d → check_api_running (probe (i + 1 + j)) = false := by
        intro j hj
        have := hfail (j + 1) (by omega)
        rw [show i + (j + 1) = i + 1 + j by omega] at this
        exact this
      simp [pollLoop, h0, ih rem (i + 1) (by omega) hs hf, pollFailEvents]

theorem countProbes_pollFailEvents : ∀ rem, countProbes (pollFailEvents rem) = rem := by
  intro rem
  induction rem with
  | zero => rfl
  | succ rem ih =>
    simp [pollFailEvents, countProbes, List.filter, isProbe] at ih ⊢
    exact ih

theorem countSleep1_pollFailEvents : ∀ rem, countSleep1 (pollFailEvents rem) = rem := by
  intro rem
  induction rem with
  | zero => rfl
  | succ rem ih =>
    simp [pollFailEvents, countSleep1, List.filter, isSleep1] at ih ⊢
    exact ih

theorem spawnFrontend_not_mem_pollFailEvents :
    ∀ rem, Event.spawnFrontend ∉ pollFailEvents rem := by
  intro rem
  induction rem with
  | zero => simp [pollFailEvents]
  | succ rem ih => simp [pollFailEvents, ih]

theorem countProbes_append (l r : List Event) :
    countProbes (l ++ r) = countProbes l + countProbes r := by
  simp [countProbes, List.filter_append]

theorem countSleep1_append (l r : List Event) :
    countSleep1 (l ++ r) = countSleep1 l + countSleep1 r := by
  simp [countSleep1, List.filter_append]

theorem countProbes_cons_not (e : Event) (l : List Event) (h : isProbe e = false) :
    countProbes (e :: l) = countProbes l := by
  simp [countProbes, List.filter_cons, h]

theorem countSleep1_cons_not (e : Event) (l : List Event) (h : isSleep1 e = false) :
    countSleep1 (e :: l) = countSleep1 l := by
  simp [countSleep1, List.filter_cons, h]

/-- No `cleanup` invocation ever produces a probe, a sleep, or a frontend
spawn: its events are termination primitives only. -/
theorem cleanup_events_shape (s : SupState) :
    ∀ e ∈ (cleanup s).2.2,
      isProbe e = false ∧ isSleep1 e = false ∧ e ≠ .spawnFrontend := by
  revert s; decide

/-! ## Claim C4 — startup timeout -/

/-- Claim C4: when the backend is not already running and its health
endpoint never returns success, startup makes exactly 15 probe attempts
(the default budget), one fixed 1-second sleep before each, reports the
startup timeout, calls `terminate` on the already-spawned backend
process, never spawns the frontend, and the supervisor exits with the
startup-failure code 1. -/
theorem C4_startup_timeout (env : Env) (fuel : Nat)
    (h0 : check_api_running env.initialProbe = false)
    (hspawn : env.spawnApiOk = true)
    (hfail : ∀ j, j < 15 → check_api_running (env.probe j) = false) :
    countProbes (start_api env).1 = 15 ∧
    countSleep1 (start_api env).1 = 15 ∧
    (start_api env).2.1 = false ∧
    Event.reportStartupTimeout ∈ (start_api env).1 ∧
    Event.terminateCall .backend ∈ (start_api env).1 ∧
    (mainRun env fuel).exitCode = some 1 ∧
    (mainRun env fuel).reason = .startupApiFailure ∧
    Event.spawnFrontend ∉ (mainRun env fuel).events := by
  have hfail' : ∀ j, j < 15 → check_api_running (env.probe (0 + j)) = false := by
    intro j hj; simpa using hfail j hj
  have hpoll := pollLoop_all_fail env.probe 15 0 hfail'
  cases hr : env.apiResponsive with
  | true =>
    have hstart : start_api env =
        (Event.spawnApi ::
            (pollFailEvents 15 ++ [Event.reportStartupTimeout] ++
              [Event.terminateCall .backend, Event.sigterm .backend]),
          false, some .deadUnreaped) := by
      simp only [start_api, hspawn, if_true, hpoll, hr, popen_terminate]
      rfl
    have hmain : mainRun env fuel =
        ⟨Event.probeAttempt false ::
            ((start_api env).1 ++ (cleanup ⟨some .deadUnreaped, none⟩).2.2 ++
              [Event.exitEv 1]),
          some 1, .startupApiFailure, (cleanup ⟨some .deadUnreaped, none⟩).1⟩ := by
      rw [mainRun, if_neg (by simp [h0]), hstart]
      rfl
    rw [hstart] at hmain ⊢
    rw [hmain]
    refine ⟨by decide, by decide, rfl, by decide, by decide, rfl, rfl, by decide⟩
  | false =>
    have hstart : start_api env =
        (Event.spawnApi ::
            (pollFailEvents 15 ++ [Event.reportStartupTimeout] ++
              [Event.terminateCall .backend, Event.sigterm .backend]),
          false, some (.running false)) := by
      simp only [start_api, hspawn, if_true, hpoll, hr, popen_terminate]
      rfl
    have hmain : mainRun env fuel =
        ⟨Event.probeAttempt false ::
            ((start_api env).1 ++ (cleanup ⟨some (.running false), none⟩).2.2 ++
              [Event.exitEv 1]),
          some 1, .startupApiFailure, (cleanup ⟨some (.running false), none⟩).1⟩ := by
      rw [mainRun, if_neg (by simp [h0]), hstart]
      rfl
    rw [hstart] at hmain ⊢
    rw [hmain]
    refine ⟨by decide, by decide, rfl, by decide, by decide, rfl, rfl, by decide⟩

/-! ## Claim C9 — immediate stop on success -/

/-- Claim C9: if the health endpoint first returns success on probe
attempt `k + 1 ≤ 15` (0-indexed attempt `k`), the polling loop stops
immediately after that attempt: `start_api` reports success having made
exactly `k + 1` probe attempts and `k + 1` one-second sleeps — no further
probes and no waiting beyond the already-elapsed intervals — and the
backend handle is owned as running. -/
theorem C9_poll_stops_on_success (env : Env) (k : Nat)
    (hk : k < 15)
    (hspawn : env.spawnApiOk = true)
    (hsucc : check_api_running (env.probe k) = true)
    (hfail : ∀ j, j < k → check_api_running (env.probe j) = false) :
    (start_api env).2.1 = true ∧
    countProbes (start_api env).1 = k + 1 ∧
    countSleep1 (start_api env).1 = k + 1 ∧
    (start_api env).2.2 = some (.running env.apiResponsive) := by
  have hsucc' : check_api_running (env.probe (0 + k)) = true := by simpa using hsucc
  have hfail' : ∀ j, j < k → check_api_running (env.probe (0 + j)) = false := by
    intro j hj; simpa using hfail j hj
  have hpoll := pollLoop_first_success env.probe k 15 0 hk hsucc' hfail'
  have hstart : start_api env =
      (Event.spawnApi ::
          (pollFailEvents k ++ [Event.sleepSec 1, Event.probeAttempt true]),
        true, some (.running env.apiResponsive)) := by
    simp only [start_api, hspawn, if_true, hpoll]
  rw [hstart]
  have hp1 : countProbes [Event.sleepSec 1, Event.probeAttempt true] = 1 := rfl
  have hs1 : countSleep1 [Event.sleepSec 1, Event.probeAttempt true] = 1 := rfl
  refine ⟨rfl, ?_, ?_, rfl⟩
  · rw [countProbes_cons_not Event.spawnApi _ rfl, countProbes_append,
      countProbes_pollFailEvents, hp1]
  · rw [countSleep1_cons_not Event.spawnApi _ rfl, countSleep1_append,
      countSleep1_pollFailEvents, hs1]

/-- Witness for C4: the startup-timeout theorem applied to a concrete
environment in which every probe is a connection failure. -/
theorem C4_witness :
    countProbes (start_api envNeverReady).1 = 15 ∧
    (mainRun envNeverReady 1).exitCode = some 1 ∧
    Event.spawnFrontend ∉ (mainRun envNeverReady 1).events :=
  ⟨(C4_startup_timeout envNeverReady 1 (by decide) (by decide) (by decide)).1,
   (C4_startup_timeout envNeverReady 1 (by decide) (by decide)
      (by decide)).2.2.2.2.2.1,
   (C4_startup_timeout envNeverReady 1 (by decide) (by decide)
      (by decide)).2.2.2.2.2.2.2⟩

/-- Witness for C9: the immediate-stop theorem applied to a concrete
environment whose backend becomes healthy on the fourth probe. -/
theorem C9_witness :
    (start_api envReadyAt3).2.1 = true ∧
    countProbes (start_api envReadyAt3).1 = 4 :=
  ⟨(C9_poll_stops_on_success envReadyAt3 3 (by decide) (by decide)
      (by decide) (by decide)).1,
   (C9_poll_stops_on_success envReadyAt3 3 (by decide) (by decide)
      (by decide) (by decide)).2.1⟩

/-! ## Frontend-gating lemmas -/

theorem frontendGated_cons_success (l : List Event) :
    frontendGated (.probeAttempt true :: l) = true := by
  simp [frontendGated]

theorem frontendGated_cons_other (e : Event) (l : List Event)
    (h1 : e ≠ .spawnFrontend) (h2 : e ≠ .probeAttempt true) :
    frontendGated (e :: l) = frontendGated l := by
  simp [frontendGated, h1, h2]

theorem frontendGated_of_not_mem :
    ∀ l, Event.spawnFrontend ∉ l → frontendGated l = true := by
  intro l
  induction l with
  | nil => intro _; rfl
  | cons e es ih =>
    intro h
    have he : e ≠ Event.spawnFrontend := fun heq => h (heq ▸ List.mem_cons_self e es)
    by_cases hp : e = Event.probeAttempt true
    · rw [hp]; exact frontendGated_cons_success es
    · rw [frontendGated_cons_other e es he hp]
      exact ih fun hm => h (List.mem_cons_of_mem e hm)

/-- The polling loop's events gate the rest of the trace: whatever follows
them, the combined trace is frontend-gated when the loop succeeded, and
reduces to the gating of the rest when it failed. -/
theorem frontendGated_pollLoop (probe : Nat → HttpOutcome) :
    ∀ (rem i : Nat) (r : List Event),
      frontendGated ((pollLoop probe i rem).1 ++ r) =
        if (pollLoop probe i rem).2 then true else frontendGated r := by
  intro rem
  induction rem with
  | zero => intro i r; rfl
  | succ rem ih =>
    intro i r
    by_cases hc : check_api_running (probe i)
    · simp only [pollLoop, hc, if_true, List.cons_append]
      rw [frontendGated_cons_other _ _ (by simp) (by simp),
        frontendGated_cons_success]
    · simp only [pollLoop, hc, Bool.false_eq_true, if_false, List.cons_append]
      rw [frontendGated_cons_other _ _ (by simp) (by simp),
        frontendGated_cons_other _ _ (by simp) (by simp [hc])]
      exact ih (i + 1) r

theorem spawnFrontend_not_mem_pollLoop (probe : Nat → HttpOutcome) :
    ∀ (rem i : Nat), Event.spawnFrontend ∉ (pollLoop probe i rem).1 := by
  intro rem
  induction rem with
  | zero => intro i; simp [pollLoop]
  | succ rem ih =>
    intro i
    by_cases hc : check_api_running (probe i) <;>
      simp [pollLoop, hc, ih (i + 1)]

theorem spawnFrontend_not_mem_popen_terminate (n : PName) (p : ProcState) :
    Event.spawnFrontend ∉ (popen_terminate n p).2 := by
  revert n p; decide

theorem spawnFrontend_not_mem_cleanup (s : SupState) :
    Event.spawnFrontend ∉ (cleanup s).2.2 :=
  fun hm => (cleanup_events_shape s _ hm).2.2 rfl

/-! ## Claim C5 — frontend spawn gated on backend readiness -/

/-- Claim C5: in every run of either launcher script, the frontend spawn
(the only way its `ManagedProcess` leaves `NotStarted`) is issued only
after some readiness probe of the backend health endpoint — the pre-spawn
external check or an in-loop poll — has returned success: no
`spawnFrontend` event ever precedes the first successful `probeAttempt`
in the trace. -/
theorem C5_frontend_spawn_gated (env : Env) (fuel : Nat) (interrupted : Bool) :
    frontendGated (mainRun env fuel).events = true ∧
    frontendGated (rd_mainRun env interrupted).1 = true := by
  constructor
  · by_cases h0 : check_api_running env.initialProbe
    · simp only [mainRun, h0, if_true]
      exact frontendGated_cons_success _
    · by_cases hspawn : env.spawnApiOk
      · rcases hpl : pollLoop env.probe 0 15 with ⟨pes, ok⟩
        cases ok with
        | true =>
          have hstart : start_api env =
              (Event.spawnApi :: pes, true, some (.running env.apiResponsive)) := by
            simp only [start_api, hspawn, if_true, hpl]
          have hg : ∀ r, frontendGated (pes ++ r) = true := by
            intro r
            have h2 := frontendGated_pollLoop env.probe 15 0 r
            rw [hpl] at h2
            simpa using h2
          simp only [mainRun, h0, hstart, Bool.false_eq_true, if_false, if_true,
            List.cons_append]
          rw [frontendGated_cons_other _ _ (by simp) (by simp),
            frontendGated_cons_other _ _ (by simp) (by simp)]
          exact hg _
        | false =>
          have hstart : start_api env =
              (Event.spawnApi :: pes ++ [Event.reportStartupTimeout] ++
                  (popen_terminate .backend (.running env.apiResponsive)).2,
                false, some (popen_terminate .backend (.running env.apiResponsive)).1) := by
            simp only [start_api, hspawn, if_true, hpl]
            rfl
          have hpes : Event.spawnFrontend ∉ pes := by
            have := spawnFrontend_not_mem_pollLoop env.probe 15 0
            rw [hpl] at this
            simpa using this
          simp only [mainRun, h0, hstart, Bool.false_eq_true, if_false, if_true,
            List.cons_append]
          apply frontendGated_of_not_mem
          intro hmem
          have h1 := spawnFrontend_not_mem_popen_terminate PName.backend
            (ProcState.running env.apiResponsive)
          have h2 := spawnFrontend_not_mem_cleanup
            ⟨some (popen_terminate PName.backend (ProcState.running env.apiResponsive)).1, none⟩
          simp [hpes, h1, h2] at hmem
      · have hstart : start_api env = ([], false, none) := by
          simp only [start_api, hspawn, Bool.false_eq_true, if_false]
        simp only [mainRun, h0, hstart, Bool.false_eq_true, if_false,
          List.cons_append]
        decide
  · by_cases h0 : check_api_running env.initialProbe
    · have hmain : ∃ l, (rd_mainRun env interrupted).1 = .probeAttempt true :: l := by
        simp only [rd_mainRun, h0, if_true]
        rcases hst : rd_start_streamlit env with ⟨es2, stP⟩
        cases stP <;> cases interrupted <;> simp
      rcases hmain with ⟨l, hl⟩
      rw [hl]
      exact frontendGated_cons_success l
    · by_cases hspawn : env.spawnApiOk
      · rcases hpl : pollLoop env.probe 0 10 with ⟨pes, ok⟩
        cases ok with
        | true =>
          have hra : rd_start_api env =
              (Event.spawnApi :: pes, some (.running env.apiResponsive)) := by
            simp only [rd_start_api, hspawn, if_true, hpl]
          have hg : ∀ r, frontendGated (pes ++ r) = true := by
            intro r
            have h2 := frontendGated_pollLoop env.probe 10 0 r
            rw [hpl] at h2
            simpa using h2
          have hmain : ∃ r, (rd_mainRun env interrupted).1 =
              .probeAttempt false :: .spawnApi :: (pes ++ r) := by
            simp only [rd_mainRun, h0, hra, Bool.false_eq_true, if_false, if_true,
              Option.isSome_some, List.cons_append]
            rcases hst : rd_start_streamlit env with ⟨es2, stP⟩
            cases stP <;> cases interrupted <;> simp [List.append_assoc]
          rcases hmain with ⟨r, hr⟩
          rw [hr, frontendGated_cons_other _ _ (by simp) (by simp),
            frontendGated_cons_other _ _ (by simp) (by simp)]
          exact hg r
        | false =>
          have hra : rd_start_api env =
              (Event.spawnApi :: pes ++ [Event.reportStartupTimeout] ++
                  (popen_terminate .backend (.running env.apiResponsive)).2,
                none) := by
            simp only [rd_start_api, hspawn, if_true, hpl]
            rfl
          have hpes : Event.spawnFrontend ∉ pes := by
            have := spawnFrontend_not_mem_pollLoop env.probe 10 0
            rw [hpl] at this
            simpa using this
          simp only [rd_mainRun, h0, hra, Bool.false_eq_true, if_false,
            Option.isSome_none, List.cons_append]
          apply frontendGated_of_not_mem
          intro hmem
          have h1 := spawnFrontend_not_mem_popen_terminate PName.backend
            (ProcState.running env.apiResponsive)
          simp [hpes, h1] at hmem
      · have hra : rd_start_api env = ([], none) := by
          simp only [rd_start_api, hspawn, Bool.false_eq_true, if_false]
        simp only [rd_mainRun, h0, hra, Bool.false_eq_true, if_false,
          Option.isSome_none, List.cons_append]
        decide

/-! ## Backend-frame lemmas for externally detected backends -/

theorem backendFree_append (l r : List Event) :
    backendFree (l ++ r) = (backendFree l && backendFree r) := by
  simp [backendFree, List.all_append]

theorem backendFree_cons (e : Event) (l : List Event) :
    backendFree (e :: l) = (!touchesBackend e && backendFree l) := by
  simp [backendFree]

theorem not_mem_of_backendFree (es : List Event) (h : backendFree es = true)
    (e : Event) (he : touchesBackend e = true) : e ∉ es := by
  intro hm
  have := List.all_eq_true.mp h e hm
  rw [he] at this
  simp at this

/-- `cleanup` on a state that owns no backend handle produces no
backend-touching event and still owns no backend handle. -/
theorem cleanup_no_backend (s : SupState) (h : s.api_process = none) :
    backendFree (cleanup s).2.2 = true ∧ (cleanup s).1.api_process = none := by
  rcases s with ⟨a, x⟩
  cases h
  revert x; decide

theorem breakExit_no_backend (pre : List Event) (r : Reason) (s : SupState)
    (hpre : backendFree pre = true) (h : s.api_process = none) :
    backendFree (breakExit pre r s).events = true ∧
    (breakExit pre r s).final.api_process = none := by
  have h1 := cleanup_no_backend s h
  have h2 := cleanup_no_backend (cleanup s).1 h1.2
  rw [breakExit_events, breakExit_final]
  refine ⟨?_, h2.2⟩
  simp only [backendFree_append, hpre, h1.1, h2.1]
  decide

theorem signalExit_no_backend (pre : List Event) (s : SupState)
    (hpre : backendFree pre = true) (h : s.api_process = none) :
    backendFree (signalExit pre s).events = true ∧
    (signalExit pre s).final.api_process = none := by
  have h1 := cleanup_no_backend s h
  have h2 := cleanup_no_backend (cleanup s).1 h1.2
  have h3 := cleanup_no_backend (cleanup (cleanup s).1).1 h2.2
  rw [signalExit_events, signalExit_final]
  refine ⟨?_, h3.2⟩
  simp only [backendFree_append, hpre, h1.1, h2.1, h3.1]
  decide

/-- With no owned backend handle, the monitoring loop never touches the
backend, never ends because of it, and keeps owning no backend handle. -/
theorem monitor_no_backend (env : Env) :
    ∀ (fuel : Nat) (stP : Option ProcState) (t : Nat),
      backendFree (monitor env none stP t fuel).events = true ∧
      (monitor env none stP t fuel).final.api_process = none ∧
      (monitor env none stP t fuel).reason ≠ .apiDied := by
  intro fuel
  induction fuel with
  | zero => intro stP t; exact ⟨rfl, rfl, by simp [monitor]⟩
  | succ fuel ih =>
    intro stP t
    by_cases hs : env.sigAt t
    · have hstep : monitorStep env none stP t =
          .inl (signalExit [.sleepSec 1] ⟨none, stP⟩) := by
        simp [monitorStep, hs]
      have hse := signalExit_no_backend [.sleepSec 1] ⟨none, stP⟩ (by decide) rfl
      simp only [monitor, hstep]
      exact ⟨hse.1, hse.2, by rw [signalExit_reason]; simp⟩
    · cases stP with
      | none =>
        have hstep : monitorStep env none none t = .inr (⟨none, none⟩, [.sleepSec 1]) := by
          simp [monitorStep, hs, monitorStep.stepFrontend]
        have hm := ih none (t + 1)
        simp only [monitor, hstep]
        refine ⟨?_, hm.2.1, hm.2.2⟩
        rw [backendFree_append, hm.1]
        decide
      | some q =>
        rcases hq : popen_poll (env.stAlive t) q with ⟨q2, dead⟩
        cases dead with
        | true =>
          have hstep : monitorStep env none (some q) t =
              .inl (breakExit [.sleepSec 1, .pollCheck .frontend false] .stDied
                ⟨none, some q2⟩) := by
            simp [monitorStep, hs, monitorStep.stepFrontend, hq]
          have hbe := breakExit_no_backend [.sleepSec 1, .pollCheck .frontend false]
            .stDied ⟨none, some q2⟩ (by decide) rfl
          simp only [monitor, hstep]
          exact ⟨hbe.1, hbe.2, by rw [breakExit_reason]; simp⟩
        | false =>
          have hstep : monitorStep env none (some q) t =
              .inr (⟨none, some q2⟩, [.sleepSec 1, .pollCheck .frontend true]) := by
            simp [monitorStep, hs, monitorStep.stepFrontend, hq]
          have hm := ih (some q2) (t + 1)
          simp only [monitor, hstep]
          refine ⟨?_, hm.2.1, hm.2.2⟩
          rw [backendFree_append, hm.1]
          decide

/-- The frontend phase with no owned backend handle never touches the
backend, keeps owning none, and never ends with the backend-died reason. -/
theorem frontendPhase_no_backend (env : Env) (fuel : Nat) :
    backendFree (frontendPhase env none fuel).events = true ∧
    (frontendPhase env none fuel).final.api_process = none ∧
    (frontendPhase env none fuel).reason ≠ .apiDied := by
  cases hst : env.spawnStOk with
  | true =>
    have hm := monitor_no_backend env fuel (some (.running env.stResponsive)) 0
    simp only [frontendPhase, start_streamlit, hst, if_true]
    refine ⟨?_, hm.2.1, hm.2.2⟩
    rw [backendFree_append, hm.1]
    decide
  | false =>
    simp only [frontendPhase, start_streamlit, hst, Bool.false_eq_true, if_false]
    refine ⟨by decide, by decide, by decide⟩

/-- If `monitorStep` with no owned backend continues, the continuing state
still owns no backend handle. -/
theorem monitorStep_none_inr (env : Env) (stP : Option ProcState) (t : Nat)
    (s2 : SupState) (es : List Event)
    (h : monitorStep env none stP t = .inr (s2, es)) : s2.api_process = none := by
  unfold monitorStep monitorStep.stepFrontend at h
  split at h
  · exact absurd h (by simp)
  · cases stP with
    | none => cases h; rfl
    | some q =>
      simp only at h
      split at h
      · exact absurd h (by simp)
      · cases h; rfl

/-- A single monitoring iteration with no owned backend handle consults
only the signal and frontend-liveness environment. -/
theorem monitorStep_none_congr (env1 env2 : Env) (stP : Option ProcState) (t : Nat)
    (hsig : env1.sigAt = env2.sigAt) (hst : env1.stAlive = env2.stAlive) :
    monitorStep env1 none stP t = monitorStep env2 none stP t := by
  unfold monitorStep monitorStep.stepFrontend
  rw [hsig, hst]

/-- With no owned backend handle, the monitoring loop consults only the
signal and frontend-liveness environment — in particular it is completely
independent of the backend-liveness environment. -/
theorem monitor_none_congr (env1 env2 : Env)
    (hsig : env1.sigAt = env2.sigAt) (hst : env1.stAlive = env2.stAlive) :
    ∀ (fuel : Nat) (stP : Option ProcState) (t : Nat),
      monitor env1 none stP t fuel = monitor env2 none stP t fuel := by
  intro fuel
  induction fuel with
  | zero => intro stP t; rfl
  | succ fuel ih =>
    intro stP t
    have hstep := monitorStep_none_congr env1 env2 stP t hsig hst
    rcases h2 : monitorStep env2 none stP t with r | ⟨s2, es⟩
    · simp only [monitor, hstep, h2]
    · have hs2 := monitorStep_none_inr env2 stP t s2 es h2
      simp only [monitor, hstep, h2, hs2, ih s2.streamlit_process (t + 1)]

/-- With no owned backend handle, the frontend phase consults only the
frontend-spawn, frontend-responsiveness, signal and frontend-liveness
parts of the environment. -/
theorem frontendPhase_none_congr (env1 env2 : Env) (fuel : Nat)
    (hsig : env1.sigAt = env2.sigAt) (hst : env1.stAlive = env2.stAlive)
    (hok : env1.spawnStOk = env2.spawnStOk)
    (hresp : env1.stResponsive = env2.stResponsive) :
    frontendPhase env1 none fuel = frontendPhase env2 none fuel := by
  cases hso : env2.spawnStOk with
  | true =>
    simp only [frontendPhase, start_streamlit, hok, hso, if_true, hresp]
    rw [monitor_none_congr env1 env2 hsig hst]
  | false =>
    simp only [frontendPhase, start_streamlit, hok, hso, Bool.false_eq_true, if_false]

/-! ## Claim C7 — external backend is never touched -/

/-- Claim C7: when the pre-spawn readiness probe finds the backend already
running externally, the supervisor proceeds straight to the frontend with
no owned backend handle (`api_process` stays `None` for the entire run),
and no event of the run — spawn, monitoring poll, terminate/wait/kill
call, or delivered signal — ever touches the backend process: no shutdown
path (cleanup on break, signal handling, or failure exit) reaches it. -/
theorem C7_external_backend_untouched (env : Env) (fuel : Nat)
    (h0 : check_api_running env.initialProbe = true) :
    backendFree (mainRun env fuel).events = true ∧
    (mainRun env fuel).final.api_process = none := by
  have hfp := frontendPhase_no_backend env fuel
  simp only [mainRun, h0, if_true]
  refine ⟨?_, hfp.2.1⟩
  rw [backendFree_cons, hfp.1]
  decide

/-- Witness for C7: the theorem applied to a concrete environment whose
backend is externally ready and where a signal arrives at iteration 2. -/
theorem C7_witness :
    backendFree (mainRun envExternal 5).events = true ∧
    (mainRun envExternal 5).final.api_process = none :=
  C7_external_backend_untouched envExternal 5 (by decide)

/-! ## Claim C10 — external backend death is never detected -/

/-- Claim C10: when the backend was detected as already running externally
at startup, the supervisor owns no backend handle, so the monitoring loop
polls only the frontend: the run is completely independent of the
backend-liveness environment (replacing it changes nothing), the run
never ends with the backend-died reason, and no backend liveness check
ever appears in the trace — the supervisor keeps running until the
frontend exits or a signal arrives. -/
theorem C10_external_backend_not_monitored (env : Env) (fuel : Nat)
    (h0 : check_api_running env.initialProbe = true) :
    (∀ f : Nat → Bool, mainRun { env with apiAlive := f } fuel = mainRun env fuel) ∧
    (mainRun env fuel).reason ≠ .apiDied ∧
    (∀ b : Bool, Event.pollCheck .backend b ∉ (mainRun env fuel).events) := by
  have hfp := frontendPhase_no_backend env fuel
  refine ⟨?_, ?_, ?_⟩
  · intro f
    have h0' : check_api_running ({ env with apiAlive := f } : Env).initialProbe = true := h0
    have hfc := frontendPhase_none_congr { env with apiAlive := f } env fuel rfl rfl rfl rfl
    simp only [mainRun, h0, h0', if_true, hfc]
  · simp only [mainRun, h0, if_true]
    exact hfp.2.2
  · intro b
    simp only [mainRun, h0, if_true]
    intro hm
    rcases List.mem_cons.mp hm with h | h
    · simp at h
    · exact not_mem_of_backendFree _ hfp.1 (Event.pollCheck .backend b)
        (by cases b <;> rfl) h

/-- Witness for C10: the theorem applied to a concrete externally-ready
environment; replacing its backend-liveness function with constantly-dead
changes nothing, and the run does not end with the backend-died reason. -/
theorem C10_witness :
    mainRun { envExternal with apiAlive := fun _ => false } 5 = mainRun envExternal 5 ∧
    (mainRun envExternal 5).reason ≠ .apiDied :=
  ⟨(C10_external_backend_not_monitored envExternal 5 (by decide)).1 (fun _ => false),
   (C10_external_backend_not_monitored envExternal 5 (by decide)).2.1⟩

end StartSystem

